import Mathlib

/-!
Shallow embedding of the rororun-api core: the winability scoring engine,
the time/pace formatting helpers, the time-string parser, and the Strava
token lifecycle manager.  JavaScript numbers are modelled as exact
rationals (ℚ); `Math.round` is `⌊x + 1/2⌋`, matching ECMAScript for every
finite input.  Non-finite doubles (NaN, ±Infinity) cannot arise from the
modelled arithmetic and are represented only where a source function
explicitly tests for them (`JSVal.nonFiniteNum`).
-/

namespace Rororun

/-- `Math.round` in JavaScript: `⌊x + 1/2⌋` for every finite `x`. -/
def jsRound (q : ℚ) : Int := ⌊q + 1/2⌋

/-- JavaScript remainder `a % b`, used here only with `0 ≤ a` and `0 < b`,
where truncating and flooring division agree: `a - b * ⌊a / b⌋`. -/
def jsMod (a b : ℚ) : ℚ := a - b * ⌊a / b⌋

/-- Embeds `clamp(n, min = 0, max = 100) = Math.max(min, Math.min(max, n))`
from the route sources. -/
def clamp (n : ℚ) (min : ℚ := 0) (max : ℚ := 100) : ℚ :=
  Max.max min (Min.min max n)

/-- Color tier of a winability score. -/
inductive Color where
  | green
  | orange
  | red
deriving DecidableEq

/-- The `breakdown` object returned by `computeWinability`. -/
structure WinabilityBreakdown where
  gapScore : Int
  difficultyScore : Int
  sprintBonus : ℚ
deriving DecidableEq

/-- The result object of `computeWinability` (weighted policy). -/
structure WinabilityResult where
  winability : Int
  color : Color
  breakdown : WinabilityBreakdown
deriving DecidableEq

/-- `const gapScore = clamp(100 - (params.gapSec / 60) * 100);` -/
def gapScoreOf (gapSec : ℚ) : ℚ :=
  clamp (100 - (gapSec / 60) * 100)

/-- `const distPenalty = clamp((params.distanceM / 5000) * 60, 0, 60);` -/
def distPenaltyOf (distanceM : ℚ) : ℚ :=
  clamp ((distanceM / 5000) * 60) 0 60

/-- `const elevPenalty = clamp((params.elevationGainM / 200) * 40, 0, 40);` -/
def elevPenaltyOf (elevationGainM : ℚ) : ℚ :=
  clamp ((elevationGainM / 200) * 40) 0 40

/-- `const difficultyScore = clamp(100 - (distPenalty + elevPenalty));` -/
def difficultyScoreOf (distanceM elevationGainM : ℚ) : ℚ :=
  clamp (100 - (distPenaltyOf distanceM + elevPenaltyOf elevationGainM))

/-- `const sprintBonus = params.distanceM <= 600 ? 10 : params.distanceM <= 1200 ? 5 : 0;` -/
def sprintBonusOf (distanceM : ℚ) : ℚ :=
  if distanceM ≤ 600 then 10 else if distanceM ≤ 1200 then 5 else 0

/-- `const winability = clamp(gapScore * 0.65 + difficultyScore * 0.25 + sprintBonus * 0.1);` -/
def winabilityRaw (gapSec distanceM elevationGainM : ℚ) : ℚ :=
  clamp (gapScoreOf gapSec * 0.65 +
         difficultyScoreOf distanceM elevationGainM * 0.25 +
         sprintBonusOf distanceM * 0.1)

/-- Embeds the weighted-policy `computeWinability` from
`src/unnamed/part_001` (identical copy in the first variant of
`src/app/api/segment/score/route.ts`).  The color is chosen from the
unrounded `winability`, as in the source. -/
def computeWinability (gapSec distanceM elevationGainM : ℚ) : WinabilityResult :=
  let w := winabilityRaw gapSec distanceM elevationGainM
  { winability := jsRound w
  , color := if w ≥ 70 then Color.green else if w ≥ 40 then Color.orange else Color.red
  , breakdown :=
    { gapScore := jsRound (gapScoreOf gapSec)
    , difficultyScore := jsRound (difficultyScoreOf distanceM elevationGainM)
    , sprintBonus := sprintBonusOf distanceM } }

/-- `String(n).padStart(2, "0")` applied to a rendered integer. -/
def padStart2 (s : String) : String :=
  if 2 ≤ s.length then s else if s.length = 1 then "0" ++ s else "00"

/-- The template `` `${m}:${String(r).padStart(2, "0")}` ``. -/
def fmtMS (m r : Int) : String :=
  toString m ++ ":" ++ padStart2 (toString r)

/-- The template `` `${h}:${String(m).padStart(2, "0")}:${String(r).padStart(2, "0")}` ``. -/
def fmtHMS (h m r : Int) : String :=
  toString h ++ ":" ++ padStart2 (toString m) ++ ":" ++ padStart2 (toString r)

/-- Embeds `secondsToMMSS` from `src/unnamed/part_001`: null for negative
(or non-finite, impossible in the ℚ model) input, else total minutes and
rounded remainder seconds, with no hour field. -/
def secondsToMMSS (s : ℚ) : Option String :=
  if s < 0 then none
  else some (fmtMS ⌊s / 60⌋ (jsRound (jsMod s 60)))

/-- Embeds `secondsToTime` from the second variant in
`src/app/api/segment/score/route.ts` (lines 285-294): clamps the rounded
input at 0, then renders `H:MM:SS` when the hour part is positive and
`M:SS` otherwise. -/
def secondsToTime (sec : Option ℚ) : Option String :=
  match sec with
  | none => none
  | some q =>
    let s : Int := Max.max 0 (jsRound q)
    let h : Int := s / 3600
    let m : Int := (s % 3600) / 60
    let r : Int := s % 60
    if h > 0 then some (fmtHMS h m r) else some (fmtMS m r)

/-- A JavaScript value as seen by `parseTimeToSeconds`: a finite number, a
non-finite number (NaN or ±Infinity), a string, or anything else
(null, undefined, boolean, object). -/
inductive JSVal where
  | num (q : ℚ)
  | nonFiniteNum
  | str (s : String)
  | other
deriving DecidableEq

/-- `String.prototype.trim`: strip leading and trailing whitespace. -/
def jsTrim (l : List Char) : List Char :=
  ((l.dropWhile Char.isWhitespace).reverse.dropWhile Char.isWhitespace).reverse

/-- `String.prototype.split(":")`: cut at every colon, keeping empty parts. -/
def splitOnColon : List Char → List (List Char)
  | [] => [[]]
  | c :: cs =>
    let r := splitOnColon cs
    if c = ':' then [] :: r
    else
      match r with
      | [] => [[c]]
      | h :: t => (c :: h) :: t

/-- Value of a decimal digit string, most significant first. -/
def digitsToNat (l : List Char) : ℕ :=
  l.foldl (fun a c => a * 10 + (c.toNat - 48)) 0

/-- Value of `intPart.fracPart` as a rational. -/
def decimalValue (intPart fracPart : List Char) : ℚ :=
  (digitsToNat intPart : ℚ) + (digitsToNat fracPart : ℚ) / (10 : ℚ) ^ fracPart.length

/-- Models the ECMAScript `Number(string)` conversion on the decimal
fragment used by this repository: optional whitespace, optional sign,
decimal digits with an optional fraction part.  (Hex, binary, exponent and
`Infinity` literals are not exercised by the repository's time strings and
are outside the model.)  `none` stands for NaN; whitespace-only input
converts to `0` as in JS. -/
def jsNumberOfChars (l : List Char) : Option ℚ :=
  let t := jsTrim l
  if t.isEmpty then some 0
  else
    let signAndRest : Bool × List Char :=
      match t with
      | '-' :: cs => (true, cs)
      | '+' :: cs => (false, cs)
      | cs => (false, cs)
    let neg := signAndRest.1
    match signAndRest.2.span Char.isDigit with
    | (intPart, []) =>
      if intPart.isEmpty then none
      else some (if neg then -(digitsToNat intPart : ℚ) else (digitsToNat intPart : ℚ))
    | (intPart, '.' :: fracPart) =>
      if fracPart.all Char.isDigit && !(intPart.isEmpty && fracPart.isEmpty) then
        some (if neg then -decimalValue intPart fracPart else decimalValue intPart fracPart)
      else none
    | _ => none

/-- Embeds `parseTimeToSeconds` from
`src/app/api/segment/score/route.ts` (both copies are identical):
a finite number is returned unchanged; a non-string is `null`; otherwise
the trimmed string is split on `":"`, each part converted with `Number`
(which trims again), and a 2-part `M:SS` or 3-part `H:MM:SS` shape is
combined into seconds, everything else yielding `null`. -/
def parseTimeToSeconds (t : JSVal) : Option ℚ :=
  match t with
  | JSVal.num q => some q
  | JSVal.nonFiniteNum => none
  | JSVal.other => none
  | JSVal.str s =>
    let parts := (splitOnColon (jsTrim s.toList)).map jsNumberOfChars
    if parts.any (fun p => p.isNone) then none
    else
      match parts with
      | [some m, some sec] => some (m * 60 + sec)
      | [some h, some m, some sec] => some (h * 3600 + m * 60 + sec)
      | _ => none

/-- A row of the `strava_tokens` table, as selected and upserted by
`getAccessTokenFromSupabase`. -/
structure StravaTokenRow where
  athlete_id : ℕ
  access_token : String
  refresh_token : String
  expires_at : Int
  scope : Option String
deriving DecidableEq

/-- The JSON body of a successful Strava refresh-token exchange. -/
structure RefreshResponse where
  access_token : String
  refresh_token : String
  expires_at : Int
  scope : Option String
deriving DecidableEq

/-- Outcome of the single `fetch` to the Strava OAuth endpoint that
`getAccessTokenFromSupabase` may perform: an `ok` JSON body, or a
non-success HTTP response whose body text is `txt`. -/
inductive FetchOutcome where
  | ok (refreshed : RefreshResponse)
  | httpError (txt : String)
deriving DecidableEq

/-- Environment variables read by `getAccessTokenFromSupabase`. -/
structure TokenEnv where
  supabaseUrl : Option String
  serviceKey : Option String
  clientId : Option String
  clientSecret : Option String
deriving DecidableEq

/-- JS truthiness of an optional environment string: `undefined` and the
empty string are falsy. -/
def envPresent : Option String → Bool
  | none => false
  | some s => !s.isEmpty

/-- The value returned by `getAccessTokenFromSupabase`:
`{ error }` or `{ access_token }`. -/
inductive TokenResult where
  | error (msg : String)
  | token (access_token : String)
deriving DecidableEq

/-- Observable outcome of one call to `getAccessTokenFromSupabase`: the
returned value, the row written by the `upsert` (none when no write
happened), and whether the refresh `fetch` was issued. -/
structure TokenOutcome where
  result : TokenResult
  upserted : Option StravaTokenRow
  refreshCalled : Bool
deriving DecidableEq

/-- Embeds `getAccessTokenFromSupabase` from `src/unnamed/part_001`
(lines 78-143; the copy in the score route is identical).  The Supabase
read result is passed in as `stored` (the most recent row, or none), the
clock as `now = Math.floor(Date.now() / 1000)`, and the would-be answer of
the Strava OAuth endpoint as `net`.  The row written by the upsert keeps
the stored `athlete_id` (`onConflict: "athlete_id"`) and takes
`access_token`, `refresh_token`, `expires_at` and `scope` from the
refresh response, exactly as in the source. -/
def getAccessTokenFromSupabase (env : TokenEnv) (stored : Option StravaTokenRow)
    (now : Int) (net : FetchOutcome) : TokenOutcome :=
  if !(envPresent env.supabaseUrl && envPresent env.serviceKey) then
    { result := TokenResult.error "Missing Supabase env vars"
    , upserted := none, refreshCalled := false }
  else if !(envPresent env.clientId && envPresent env.clientSecret) then
    { result := TokenResult.error "Missing Strava client env vars"
    , upserted := none, refreshCalled := false }
  else
    match stored with
    | none =>
      { result := TokenResult.error "No Strava tokens found in DB"
      , upserted := none, refreshCalled := false }
    | some row =>
      if row.expires_at ≤ now + 60 then
        match net with
        | FetchOutcome.httpError txt =>
          { result := TokenResult.error ("Strava refresh_token failed: " ++ txt)
          , upserted := none, refreshCalled := true }
        | FetchOutcome.ok refreshed =>
          { result := TokenResult.token refreshed.access_token
          , upserted := some (
            { athlete_id := row.athlete_id
            , access_token := refreshed.access_token
            , refresh_token := refreshed.refresh_token
            , expires_at := refreshed.expires_at
            , scope := refreshed.scope : StravaTokenRow })
          , refreshCalled := true }
      else
        { result := TokenResult.token row.access_token
        , upserted := none, refreshCalled := false }

/-! ## Basic facts about clamp, rounding and the score components -/

lemma clamp_le (n lo hi : ℚ) (h : lo ≤ hi) : clamp n lo hi ≤ hi :=
  max_le h (min_le_left _ _)

lemma le_clamp (n lo hi : ℚ) : lo ≤ clamp n lo hi :=
  le_max_left _ _

lemma clamp_mono (lo hi : ℚ) {n n' : ℚ} (h : n ≤ n') : clamp n lo hi ≤ clamp n' lo hi :=
  max_le_max le_rfl (min_le_min le_rfl h)

lemma clamp_eq_hi (n lo hi : ℚ) (hlo : lo ≤ hi) (h : hi ≤ n) : clamp n lo hi = hi := by
  unfold clamp
  rw [min_eq_left h, max_eq_right hlo]

lemma clamp_eq_lo (n lo hi : ℚ) (hhi : n ≤ hi) (h : n ≤ lo) : clamp n lo hi = lo := by
  unfold clamp
  rw [min_eq_right hhi, max_eq_left h]

lemma jsRound_mono {q q' : ℚ} (h : q ≤ q') : jsRound q ≤ jsRound q' :=
  Int.floor_le_floor (by linarith)

lemma jsRound_nonneg {q : ℚ} (h : 0 ≤ q) : 0 ≤ jsRound q :=
  Int.le_floor.mpr (by push_cast; linarith)

lemma jsRound_le_of_le {q : ℚ} {n : ℤ} (h : q ≤ n) : jsRound q ≤ n := by
  have : jsRound q ≤ ⌊(n : ℚ) + 1/2⌋ := jsRound_mono (by linarith)
  calc jsRound q ≤ ⌊(n : ℚ) + 1/2⌋ := this
    _ = n := by
        rw [Int.floor_int_add]
        norm_num

lemma gapScoreOf_nonneg (g : ℚ) : 0 ≤ gapScoreOf g := le_clamp _ _ _

lemma gapScoreOf_le (g : ℚ) : gapScoreOf g ≤ 100 := clamp_le _ _ _ (by norm_num)

lemma distPenaltyOf_nonneg (d : ℚ) : 0 ≤ distPenaltyOf d := le_clamp _ _ _

lemma distPenaltyOf_le (d : ℚ) : distPenaltyOf d ≤ 60 := clamp_le _ _ _ (by norm_num)

lemma elevPenaltyOf_nonneg (e : ℚ) : 0 ≤ elevPenaltyOf e := le_clamp _ _ _

lemma elevPenaltyOf_le (e : ℚ) : elevPenaltyOf e ≤ 40 := clamp_le _ _ _ (by norm_num)

lemma difficultyScoreOf_nonneg (d e : ℚ) : 0 ≤ difficultyScoreOf d e := le_clamp _ _ _

lemma difficultyScoreOf_le (d e : ℚ) : difficultyScoreOf d e ≤ 100 :=
  clamp_le _ _ _ (by norm_num)

lemma sprintBonusOf_nonneg (d : ℚ) : 0 ≤ sprintBonusOf d := by
  unfold sprintBonusOf
  split_ifs <;> norm_num

lemma sprintBonusOf_le (d : ℚ) : sprintBonusOf d ≤ 10 := by
  unfold sprintBonusOf
  split_ifs <;> norm_num

lemma winabilityRaw_nonneg (g d e : ℚ) : 0 ≤ winabilityRaw g d e := le_clamp _ _ _

lemma winabilityRaw_le (g d e : ℚ) : winabilityRaw g d e ≤ 100 :=
  clamp_le _ _ _ (by norm_num)

lemma gapScoreOf_antitone {g g' : ℚ} (h : g ≤ g') : gapScoreOf g' ≤ gapScoreOf g :=
  clamp_mono _ _ (by linarith)

lemma distPenaltyOf_mono {d d' : ℚ} (h : d ≤ d') : distPenaltyOf d ≤ distPenaltyOf d' :=
  clamp_mono _ _ (by linarith)

lemma elevPenaltyOf_mono {e e' : ℚ} (h : e ≤ e') : elevPenaltyOf e ≤ elevPenaltyOf e' :=
  clamp_mono _ _ (by linarith)

lemma difficultyScoreOf_antitone_dist {d d' : ℚ} (e : ℚ) (h : d ≤ d') :
    difficultyScoreOf d' e ≤ difficultyScoreOf d e := by
  apply clamp_mono
  have := distPenaltyOf_mono h
  linarith

lemma difficultyScoreOf_antitone_elev (d : ℚ) {e e' : ℚ} (h : e ≤ e') :
    difficultyScoreOf d e' ≤ difficultyScoreOf d e := by
  apply clamp_mono
  have := elevPenaltyOf_mono h
  linarith

lemma sprintBonusOf_antitone {d d' : ℚ} (h : d ≤ d') : sprintBonusOf d' ≤ sprintBonusOf d := by
  unfold sprintBonusOf
  split_ifs <;> linarith

lemma winabilityRaw_antitone_gap {g g' : ℚ} (d e : ℚ) (h : g ≤ g') :
    winabilityRaw g' d e ≤ winabilityRaw g d e := by
  apply clamp_mono
  have := gapScoreOf_antitone h
  nlinarith

lemma winabilityRaw_antitone_dist (g : ℚ) {d d' : ℚ} (e : ℚ) (h : d ≤ d') :
    winabilityRaw g d' e ≤ winabilityRaw g d e := by
  apply clamp_mono
  have h1 := difficultyScoreOf_antitone_dist e h
  have h2 := sprintBonusOf_antitone h
  nlinarith

lemma winabilityRaw_antitone_elev (g d : ℚ) {e e' : ℚ} (h : e ≤ e') :
    winabilityRaw g d e' ≤ winabilityRaw g d e := by
  apply clamp_mono
  have h1 := difficultyScoreOf_antitone_elev d h
  nlinarith

lemma computeWinability_winability (g d e : ℚ) :
    (computeWinability g d e).winability = jsRound (winabilityRaw g d e) := rfl

example : computeWinability 60 5000 200 =
    { winability := 0
    , color := Color.red
    , breakdown := { gapScore := 0, difficultyScore := 0, sprintBonus := 0 } } := by
  simp only [computeWinability, winabilityRaw, gapScoreOf, distPenaltyOf, elevPenaltyOf,
    difficultyScoreOf, sprintBonusOf, clamp, jsRound]
  norm_num

/-! ## Claim theorems -/

/-- Claim C1, counterexample: at `distanceMeters = 500`, `gapSeconds = 0`,
`elevationGainMeters = 0` the weighted engine does NOT return
`difficultyScore = 100` and `score = 100` as claimed: the distance penalty
at 500 m is 6, so the difficulty score is 94 and the weighted score 90. -/
theorem C1_counterexample :
    ¬((computeWinability 0 500 0).breakdown.gapScore = 100 ∧
      (computeWinability 0 500 0).breakdown.difficultyScore = 100 ∧
      (computeWinability 0 500 0).breakdown.sprintBonus = 10 ∧
      (computeWinability 0 500 0).winability = 100 ∧
      (computeWinability 0 500 0).color = Color.green) := by
  have h : computeWinability 0 500 0 =
      { winability := 90
      , color := Color.green
      , breakdown := { gapScore := 100, difficultyScore := 94, sprintBonus := 10 } } := by
    simp only [computeWinability, winabilityRaw, gapScoreOf, distPenaltyOf, elevPenaltyOf,
      difficultyScoreOf, sprintBonusOf, clamp, jsRound]
    norm_num
  rw [h]
  rintro ⟨-, h2, -⟩
  exact absurd h2 (by decide)

/-- Claim C1, amended: the input `distanceMeters = 500`, `gapSeconds = 0`,
`elevationGainMeters = 0` yields exactly `gapScore = 100`,
`difficultyScore = 94`, `sprintBonus = 10`, `score = 90` and
`colorTier = green`. -/
theorem C1_amended_theorem :
    computeWinability 0 500 0 =
      { winability := 90
      , color := Color.green
      , breakdown := { gapScore := 100, difficultyScore := 94, sprintBonus := 10 } } := by
  simp only [computeWinability, winabilityRaw, gapScoreOf, distPenaltyOf, elevPenaltyOf,
    difficultyScoreOf, sprintBonusOf, clamp, jsRound]
  norm_num

/-- Claim C6: in the weighted engine, every `gapSeconds ≤ 0` gives a gap
score of exactly 100 (negative gaps clamp at 100, never above), and every
`gapSeconds ≥ 60` gives exactly 0. -/
theorem C6_gapScore_saturation :
    (∀ g : ℚ, g ≤ 0 → gapScoreOf g = 100) ∧ (∀ g : ℚ, 60 ≤ g → gapScoreOf g = 0) := by
  constructor
  · intro g hg
    exact clamp_eq_hi _ _ _ (by norm_num) (by nlinarith)
  · intro g hg
    exact clamp_eq_lo _ _ _ (by nlinarith) (by nlinarith)

/-- Witness for C6 at `gapSeconds = -5` and `gapSeconds = 60`. -/
theorem C6_witness : gapScoreOf (-5) = 100 ∧ gapScoreOf 60 = 0 :=
  ⟨C6_gapScore_saturation.1 (-5) (by norm_num), C6_gapScore_saturation.2 60 (by norm_num)⟩

/-- Claim C7: the weighted score is monotonically non-increasing in each
argument separately: in `gapSeconds` for fixed distance and elevation, in
`distanceMeters` for fixed gap and elevation, and in
`elevationGainMeters` for fixed gap and distance. -/
theorem C7_score_antitone :
    (∀ d e g g' : ℚ, g ≤ g' →
      (computeWinability g' d e).winability ≤ (computeWinability g d e).winability) ∧
    (∀ g e d d' : ℚ, d ≤ d' →
      (computeWinability g d' e).winability ≤ (computeWinability g d e).winability) ∧
    (∀ g d e e' : ℚ, e ≤ e' →
      (computeWinability g d e').winability ≤ (computeWinability g d e).winability) := by
  refine ⟨fun d e g g' h => ?_, fun g e d d' h => ?_, fun g d e e' h => ?_⟩ <;>
    simp only [computeWinability_winability] <;> apply jsRound_mono
  · exact winabilityRaw_antitone_gap d e h
  · exact winabilityRaw_antitone_dist g e h
  · exact winabilityRaw_antitone_elev g d h

/-- Witness for C7: the three monotonicity conjuncts instantiated at
concrete inputs. -/
theorem C7_witness :
    ((computeWinability 30 500 0).winability ≤ (computeWinability 0 500 0).winability) ∧
    ((computeWinability 0 2000 0).winability ≤ (computeWinability 0 500 0).winability) ∧
    ((computeWinability 0 500 100).winability ≤ (computeWinability 0 500 0).winability) :=
  ⟨C7_score_antitone.1 500 0 0 30 (by norm_num),
   C7_score_antitone.2.1 0 0 500 2000 (by norm_num),
   C7_score_antitone.2.2 0 500 0 100 (by norm_num)⟩

/-- Claim C9: for every rational input triple the weighted engine is total
(it is a Lean function, so it cannot throw), each intermediate component
respects its stated clamp bounds — `gapScore` and `difficultyScore` in
`[0, 100]`, `distancePenalty` in `[0, 60]`, `elevationPenalty` in
`[0, 40]` — and the returned score is an integer in `[0, 100]`. -/
theorem C9_clamped_bounds : ∀ g d e : ℚ,
    0 ≤ gapScoreOf g ∧ gapScoreOf g ≤ 100 ∧
    0 ≤ distPenaltyOf d ∧ distPenaltyOf d ≤ 60 ∧
    0 ≤ elevPenaltyOf e ∧ elevPenaltyOf e ≤ 40 ∧
    0 ≤ difficultyScoreOf d e ∧ difficultyScoreOf d e ≤ 100 ∧
    0 ≤ (computeWinability g d e).winability ∧ (computeWinability g d e).winability ≤ 100 := by
  intro g d e
  refine ⟨gapScoreOf_nonneg g, gapScoreOf_le g, distPenaltyOf_nonneg d, distPenaltyOf_le d,
    elevPenaltyOf_nonneg e, elevPenaltyOf_le e, difficultyScoreOf_nonneg d e,
    difficultyScoreOf_le d e, ?_, ?_⟩
  · rw [computeWinability_winability]
    exact jsRound_nonneg (winabilityRaw_nonneg g d e)
  · rw [computeWinability_winability]
    apply jsRound_le_of_le
    have := winabilityRaw_le g d e
    push_cast
    linarith

/-- Claim C10: under the weighted policy the rounded score never exceeds
91 (`100·0.65 + 100·0.25 + 10·0.10 = 91`), so a score of 100 is
unreachable. -/
theorem C10_score_le_91 : ∀ g d e : ℚ,
    (computeWinability g d e).winability ≤ 91 ∧
    (computeWinability g d e).winability ≠ 100 := by
  intro g d e
  have h1 := gapScoreOf_le g
  have h2 := difficultyScoreOf_le d e
  have h3 := sprintBonusOf_le d
  have hsum : gapScoreOf g * 0.65 + difficultyScoreOf d e * 0.25 + sprintBonusOf d * 0.1
      ≤ 91 := by nlinarith
  have hraw : winabilityRaw g d e ≤ 91 := by
    unfold winabilityRaw
    exact max_le (by norm_num) (le_trans (min_le_right _ _) hsum)
  have hle : (computeWinability g d e).winability ≤ 91 := by
    rw [computeWinability_winability]
    apply jsRound_le_of_le
    push_cast
    linarith
  exact ⟨hle, by omega⟩

/-- Claim C5: the time-string parser maps `"5:58"` to 358 and
`"1:02:03"` to 3723; an already-numeric finite value is returned
unchanged; a non-string non-number value yields `none`; and any string
with a component that `Number` cannot convert yields `none`.  Totality —
"never throws" — holds by construction, as `parseTimeToSeconds` is a Lean
function. -/
theorem C5_parseTimeToSeconds :
    parseTimeToSeconds (JSVal.str "5:58") = some 358 ∧
    parseTimeToSeconds (JSVal.str "1:02:03") = some 3723 ∧
    (∀ q : ℚ, parseTimeToSeconds (JSVal.num q) = some q) ∧
    (parseTimeToSeconds JSVal.other = none ∧ parseTimeToSeconds JSVal.nonFiniteNum = none) ∧
    (∀ s : String, (∃ p ∈ splitOnColon (jsTrim s.toList), jsNumberOfChars p = none) →
      parseTimeToSeconds (JSVal.str s) = none) := by
  refine ⟨?_, ?_, fun q => rfl, ⟨rfl, rfl⟩, ?_⟩
  · have h5 : jsNumberOfChars ['5'] = some 5 := by decide
    have h58 : jsNumberOfChars ['5', '8'] = some 58 := by decide
    have hsplit : splitOnColon (jsTrim "5:58".toList) = [['5'], ['5', '8']] := by decide
    simp only [parseTimeToSeconds, hsplit, List.map, h5, h58]
    norm_num
  · have h1 : jsNumberOfChars ['1'] = some 1 := by decide
    have h02 : jsNumberOfChars ['0', '2'] = some 2 := by decide
    have h03 : jsNumberOfChars ['0', '3'] = some 3 := by decide
    have hsplit : splitOnColon (jsTrim "1:02:03".toList) = [['1'], ['0', '2'], ['0', '3']] := by
      decide
    simp only [parseTimeToSeconds, hsplit, List.map, h1, h02, h03]
    norm_num
  · rintro s ⟨p, hp, hnone⟩
    simp only [parseTimeToSeconds]
    rw [if_pos]
    apply List.any_eq_true.mpr
    refine ⟨jsNumberOfChars p, List.mem_map_of_mem _ hp, ?_⟩
    rw [hnone]
    rfl

/-- Witness for C5: the malformed-input conjunct applied to the concrete
string `"ab:12"`, whose first component is not a number. -/
theorem C5_witness : parseTimeToSeconds (JSVal.str "ab:12") = none :=
  C5_parseTimeToSeconds.2.2.2.2 "ab:12" ⟨['a', 'b'], by decide, by decide⟩

lemma jsRound_intCast (s : Int) : jsRound (s : ℚ) = s := by
  unfold jsRound
  rw [Int.floor_int_add]
  norm_num

lemma floor_intCast_div_sixty (s : Int) : ⌊(s : ℚ) / 60⌋ = s / 60 := by
  exact_mod_cast Rat.floor_intCast_div_natCast s 60

lemma jsMod_intCast_sixty (s : Int) : jsMod (s : ℚ) 60 = ((s % 60 : Int) : ℚ) := by
  unfold jsMod
  rw [floor_intCast_div_sixty, Int.emod_def]
  push_cast
  ring

/-- Claim C8, counterexample: at 3700 seconds (≥ one hour) the formatter
`secondsToMMSS` renders `"61:40"` — total minutes with no hour field —
while the `H:MM:SS` rendering of 3700 seconds, produced by
`secondsToTime`, is `"1:01:40"`. -/
theorem C8_counterexample :
    secondsToMMSS 3700 = some "61:40" ∧
    secondsToTime (some 3700) = some "1:01:40" ∧
    "61:40" ≠ "1:01:40" := by
  refine ⟨?_, ?_, by decide⟩
  · have h1 : ⌊(3700:ℚ) / 60⌋ = 61 := by norm_num
    have h2 : jsRound (jsMod 3700 60) = 40 := by norm_num [jsMod, jsRound]
    simp only [secondsToMMSS, h1, h2]
    norm_num
    decide
  · have h2 : jsRound 3700 = 3700 := by norm_num [jsRound]
    simp only [secondsToTime, h2]
    norm_num
    decide

/-- Claim C8, amended: for every non-negative whole number of seconds,
`secondsToTime` renders times below one hour as `M:SS` and times of at
least one hour as `H:MM:SS`; the other attested formatter,
`secondsToMMSS`, always renders `M:SS` with a total minute count, even at
or above one hour. -/
theorem C8_amended_theorem :
    (∀ s : Int, 0 ≤ s → s < 3600 →
      secondsToTime (some (s : ℚ)) = some (fmtMS (s / 60) (s % 60))) ∧
    (∀ s : Int, 3600 ≤ s →
      secondsToTime (some (s : ℚ)) = some (fmtHMS (s / 3600) (s % 3600 / 60) (s % 60))) ∧
    (∀ s : Int, 0 ≤ s →
      secondsToMMSS (s : ℚ) = some (fmtMS (s / 60) (s % 60))) := by
  refine ⟨fun s h0 h1 => ?_, fun s h1 => ?_, fun s h0 => ?_⟩
  · simp only [secondsToTime, jsRound_intCast]
    rw [max_eq_right h0]
    have hh : s / 3600 = 0 := by omega
    have hm : s % 3600 = s := by omega
    rw [hh, hm]
    norm_num
  · simp only [secondsToTime, jsRound_intCast]
    rw [max_eq_right (by omega)]
    have hh : s / 3600 > 0 := by omega
    rw [if_pos hh]
  · unfold secondsToMMSS
    rw [if_neg (not_lt.mpr (by exact_mod_cast h0)), floor_intCast_div_sixty,
      jsMod_intCast_sixty, jsRound_intCast]

/-- Witness for C8: the three rendering conjuncts instantiated at 100
seconds (below one hour) and 3700 seconds (above one hour). -/
theorem C8_witness :
    secondsToTime (some ((100 : Int) : ℚ)) = some (fmtMS ((100 : Int) / 60) ((100 : Int) % 60)) ∧
    secondsToTime (some ((3700 : Int) : ℚ)) =
      some (fmtHMS ((3700 : Int) / 3600) ((3700 : Int) % 3600 / 60) ((3700 : Int) % 60)) ∧
    secondsToMMSS ((3700 : Int) : ℚ) = some (fmtMS ((3700 : Int) / 60) ((3700 : Int) % 60)) :=
  ⟨C8_amended_theorem.1 100 (by norm_num) (by norm_num),
   C8_amended_theorem.2.1 3700 (by norm_num),
   C8_amended_theorem.2.2 3700 (by norm_num)⟩

/-- Claim C2: when the stored credential is near expiry
(`expires_at ≤ now + 60`) and the upstream refresh exchange succeeds, the
token manager upserts a row keyed on the stored athlete id whose
`access_token`, `refresh_token` and `expires_at` are exactly those of the
refresh response, and returns the new `access_token`. -/
theorem C2_refresh_persists (env : TokenEnv) (row : StravaTokenRow) (now : Int)
    (refreshed : RefreshResponse)
    (h1 : envPresent env.supabaseUrl = true) (h2 : envPresent env.serviceKey = true)
    (h3 : envPresent env.clientId = true) (h4 : envPresent env.clientSecret = true)
    (hexp : row.expires_at ≤ now + 60) :
    getAccessTokenFromSupabase env (some row) now (FetchOutcome.ok refreshed) =
      { result := TokenResult.token refreshed.access_token
      , upserted := some (
        { athlete_id := row.athlete_id
        , access_token := refreshed.access_token
        , refresh_token := refreshed.refresh_token
        , expires_at := refreshed.expires_at
        , scope := refreshed.scope : StravaTokenRow })
      , refreshCalled := true } := by
  simp [getAccessTokenFromSupabase, h1, h2, h3, h4, hexp]

/-- Witness for C2 at a concrete expired credential and refresh
response. -/
theorem C2_witness :
    getAccessTokenFromSupabase ⟨some "url", some "key", some "id", some "secret"⟩
        (some ⟨123, "oldAcc", "oldRef", 999, none⟩) 1000
        (FetchOutcome.ok ⟨"newAcc", "newRef", 9999, some "read"⟩) =
      { result := TokenResult.token "newAcc"
      , upserted := some ⟨123, "newAcc", "newRef", 9999, some "read"⟩
      , refreshCalled := true } :=
  C2_refresh_persists ⟨some "url", some "key", some "id", some "secret"⟩
    ⟨123, "oldAcc", "oldRef", 999, none⟩ 1000 ⟨"newAcc", "newRef", 9999, some "read"⟩
    (by decide) (by decide) (by decide) (by decide) (by decide)

/-- Claim C3: when the stored credential is near expiry and the upstream
exchange answers with a non-success response, the token manager performs
no upsert and fails with an error carrying the upstream response body. -/
theorem C3_refresh_failure (env : TokenEnv) (row : StravaTokenRow) (now : Int) (txt : String)
    (h1 : envPresent env.supabaseUrl = true) (h2 : envPresent env.serviceKey = true)
    (h3 : envPresent env.clientId = true) (h4 : envPresent env.clientSecret = true)
    (hexp : row.expires_at ≤ now + 60) :
    getAccessTokenFromSupabase env (some row) now (FetchOutcome.httpError txt) =
      { result := TokenResult.error ("Strava refresh_token failed: " ++ txt)
      , upserted := none
      , refreshCalled := true } := by
  simp [getAccessTokenFromSupabase, h1, h2, h3, h4, hexp]

/-- Witness for C3 at a concrete expired credential and upstream error
body. -/
theorem C3_witness :
    getAccessTokenFromSupabase ⟨some "url", some "key", some "id", some "secret"⟩
        (some ⟨123, "oldAcc", "oldRef", 999, none⟩) 1000
        (FetchOutcome.httpError "bad grant") =
      { result := TokenResult.error "Strava refresh_token failed: bad grant"
      , upserted := none
      , refreshCalled := true } :=
  C3_refresh_failure ⟨some "url", some "key", some "id", some "secret"⟩
    ⟨123, "oldAcc", "oldRef", 999, none⟩ 1000 "bad grant"
    (by decide) (by decide) (by decide) (by decide) (by decide)

/-- Claim C4: when the stored credential satisfies
`expires_at > now + 60`, the token manager issues no network call and no
write, and returns the stored `access_token` unchanged, whatever the
upstream would have answered. -/
theorem C4_fast_path (env : TokenEnv) (row : StravaTokenRow) (now : Int) (net : FetchOutcome)
    (h1 : envPresent env.supabaseUrl = true) (h2 : envPresent env.serviceKey = true)
    (h3 : envPresent env.clientId = true) (h4 : envPresent env.clientSecret = true)
    (hexp : now + 60 < row.expires_at) :
    getAccessTokenFromSupabase env (some row) now net =
      { result := TokenResult.token row.access_token
      , upserted := none
      , refreshCalled := false } := by
  simp [getAccessTokenFromSupabase, h1, h2, h3, h4, not_le.mpr hexp]

/-- Witness for C4 at a concrete credential expiring 3600 seconds after
`now`. -/
theorem C4_witness :
    getAccessTokenFromSupabase ⟨some "url", some "key", some "id", some "secret"⟩
        (some ⟨123, "storedAcc", "storedRef", 4600, none⟩) 1000
        (FetchOutcome.ok ⟨"newAcc", "newRef", 9999, some "read"⟩) =
      { result := TokenResult.token "storedAcc"
      , upserted := none
      , refreshCalled := false } :=
  C4_fast_path ⟨some "url", some "key", some "id", some "secret"⟩
    ⟨123, "storedAcc", "storedRef", 4600, none⟩ 1000
    (FetchOutcome.ok ⟨"newAcc", "newRef", 9999, some "read"⟩)
    (by decide) (by decide) (by decide) (by decide) (by decide)

end Rororun
